import Mathlib

/-!
A shallow embedding of `src/template/src/api/apiTemplate.ts`: a generic HTTP
request helper that prepares headers and bodies (JSON or multipart form),
classifies response content types, parses successful responses, and
normalizes every failure into an error value.

JavaScript runtime values are modelled by the inductive `JSValue`; the
transport (`fetch` and the response body readers) is modelled by an explicit
`MockResponse` record supplied by the caller, and thrown JS errors are
modelled with `Except` over the `JsError` record.
-/

/-- Model of a JavaScript runtime value. `undef` is `undefined`; `jsFile` and
`jsBlob` model platform `File` / `Blob` instances (with their own expando
properties); `obj` models a plain object as an ordered association list of
properties. Numbers are modelled as integers, which covers every value the
program manipulates. -/
inductive JSValue where
  | undef : JSValue
  | null : JSValue
  | bool (b : Bool) : JSValue
  | num (n : Int) : JSValue
  | str (s : String) : JSValue
  | arr (elems : List JSValue) : JSValue
  | obj (props : List (String × JSValue)) : JSValue
  | jsFile (fname : String) (props : List (String × JSValue)) : JSValue
  | jsBlob (bname : String) (props : List (String × JSValue)) : JSValue

/-! ### String primitives

Lean's built-in `String.startsWith`, `toLower`, … are byte-position loops
that the kernel cannot evaluate, so the embedding uses character-list
implementations of the JS string operations it needs. -/

/-- Does `s` start with `p` (`String.prototype.startsWith`)? -/
def charsStartWith : List Char → List Char → Bool
  | _, [] => true
  | [], _ :: _ => false
  | c :: cs, d :: ds => c == d && charsStartWith cs ds

def strStartsWith (s p : String) : Bool := charsStartWith s.data p.data

/-- Does `s` end with `p` (`String.prototype.endsWith`)? -/
def strEndsWith (s p : String) : Bool := charsStartWith s.data.reverse p.data.reverse

/-- Does `p` occur as a contiguous substring of `s`
(`String.prototype.includes`)? -/
def charsContain : List Char → List Char → Bool
  | [], p => p.isEmpty
  | c :: cs, p => charsStartWith (c :: cs) p || charsContain cs p

def strContains (s p : String) : Bool := charsContain s.data p.data

/-- `String.prototype.toLowerCase` (ASCII, which covers every comparison the
program performs). -/
def strToLower (s : String) : String := String.mk (s.data.map Char.toLower)

/-- Is `s` the empty string? -/
def strIsEmpty (s : String) : Bool := s.data.isEmpty

/-- First-binding lookup in a property list (JS objects have unique keys). -/
def lookupProp : List (String × JSValue) → String → Option JSValue
  | [], _ => none
  | (k, v) :: rest, key => if k = key then some v else lookupProp rest key

/-- JS property read `v.key` (also models optional chaining on `null` /
`undefined`, which this program only ever reads behind `?.`): a missing
property reads as `undefined`. -/
def getProp (v : JSValue) (key : String) : JSValue :=
  match v with
  | JSValue.obj fs => (lookupProp fs key).getD JSValue.undef
  | JSValue.jsFile _ fs => (lookupProp fs key).getD JSValue.undef
  | JSValue.jsBlob _ fs => (lookupProp fs key).getD JSValue.undef
  | _ => JSValue.undef

/-- JS truthiness. -/
def truthy : JSValue → Bool
  | JSValue.undef => false
  | JSValue.null => false
  | JSValue.bool b => b
  | JSValue.num n => !(n == 0)
  | JSValue.str s => !strIsEmpty s
  | _ => true

/-- `typeof v === "object"` (true for `null`, arrays, plain objects and
platform file/blob instances). -/
def typeofObject : JSValue → Bool
  | JSValue.null => true
  | JSValue.arr _ => true
  | JSValue.obj _ => true
  | JSValue.jsFile _ _ => true
  | JSValue.jsBlob _ _ => true
  | _ => false

/-- `typeof v === "string"`. -/
def isStringVal : JSValue → Bool
  | JSValue.str _ => true
  | _ => false

mutual

/-- JS `String(v)` / `toString` coercion. -/
def jsToString : JSValue → String
  | JSValue.undef => "undefined"
  | JSValue.null => "null"
  | JSValue.bool b => if b then "true" else "false"
  | JSValue.num n => toString n
  | JSValue.str s => s
  | JSValue.arr xs => jsArrToString xs
  | JSValue.obj _ => "[object Object]"
  | JSValue.jsFile _ _ => "[object File]"
  | JSValue.jsBlob _ _ => "[object Blob]"

/-- `Array.prototype.toString`: elements joined by commas, with `null` and
`undefined` elements rendered as empty strings. -/
def jsArrToString : List JSValue → String
  | [] => ""
  | [x] => jsArrElemToString x
  | x :: y :: rest => jsArrElemToString x ++ "," ++ jsArrToString (y :: rest)

def jsArrElemToString : JSValue → String
  | JSValue.undef => ""
  | JSValue.null => ""
  | x => jsToString x

end

/-- Escape one character for a JSON string literal. -/
def jsonEscapeChar (c : Char) : String :=
  if c = '"' then "\\\""
  else if c = '\\' then "\\\\"
  else if c = '\n' then "\\n"
  else if c = '\t' then "\\t"
  else if c = '\r' then "\\r"
  else String.singleton c

def jsonEscape (s : String) : String :=
  String.join (s.toList.map jsonEscapeChar)

mutual

/-- `JSON.stringify`. Returns `none` exactly when the JS call returns
`undefined` (i.e. on `undefined` itself). `File`/`Blob` instances have no
enumerable own properties, so they serialize as empty objects. -/
def jsonStringify : JSValue → Option String
  | JSValue.undef => none
  | JSValue.null => some "null"
  | JSValue.bool b => some (if b then "true" else "false")
  | JSValue.num n => some (toString n)
  | JSValue.str s => some ("\"" ++ jsonEscape s ++ "\"")
  | JSValue.arr xs => some ("[" ++ String.intercalate "," (jsonStringifyArr xs) ++ "]")
  | JSValue.obj fs => some ("\x7b" ++ String.intercalate "," (jsonStringifyProps fs) ++ "\x7d")
  | JSValue.jsFile _ _ => some "\x7b\x7d"
  | JSValue.jsBlob _ _ => some "\x7b\x7d"

/-- Array elements: `undefined` becomes `null` inside arrays. -/
def jsonStringifyArr : List JSValue → List String
  | [] => []
  | x :: rest => ((jsonStringify x).getD "null") :: jsonStringifyArr rest

/-- Object properties: properties whose value serializes to `undefined` are
dropped. -/
def jsonStringifyProps : List (String × JSValue) → List String
  | [] => []
  | (k, v) :: rest =>
    match jsonStringify v with
    | none => jsonStringifyProps rest
    | some s => ("\"" ++ jsonEscape k ++ "\":" ++ s) :: jsonStringifyProps rest

end

/-- A thrown JS `Error`. `status` and `data` are `none` when the
corresponding property was never assigned (reads as `undefined`). -/
structure JsError where
  name : String
  message : String
  status : Option Nat := none
  data : Option JSValue := none

/-- `new Error(message)` with a plain string message. -/
def plainError (message : String) : JsError :=
  { name := "Error", message := message }

/-- `makeApiError` (apiTemplate.ts, lines 50-56): builds an `Error` whose
`name` is `"ApiError"` and attaches `status` and `data`. The message argument
is an arbitrary JS value at runtime (the result of `getErrorMessage`), which
the `Error` constructor coerces to a string. -/
def makeApiError (message : JSValue) (status : Nat) (data : JSValue) : JsError :=
  { name := "ApiError", message := jsToString message,
    status := some status, data := some data }

/-- JS `a || b`. -/
def jsOr (a b : JSValue) : JSValue := if truthy a then a else b

/-- `getErrorMessage` (apiTemplate.ts, lines 33-47): extract a human-readable
message from an arbitrary error payload, probing `message`, `error`,
`detail`, `msg`, `title` in order on object payloads. -/
def getErrorMessage (errorData : JSValue) (fallbackMessage : String) : JSValue :=
  if !truthy errorData then JSValue.str fallbackMessage
  else if isStringVal errorData then errorData
  else if typeofObject errorData then
    jsOr (getProp errorData "message")
      (jsOr (getProp errorData "error")
        (jsOr (getProp errorData "detail")
          (jsOr (getProp errorData "msg")
            (jsOr (getProp errorData "title") (JSValue.str fallbackMessage)))))
  else JSValue.str fallbackMessage

/-- HTTP methods of `ApiTemplateArguments.method`. -/
inductive Method where
  | GET | POST | PUT | PATCH | DELETE
deriving DecidableEq

/-- The `ResponseType` string union (`"auto" | "json" | "blob" | "text" |
"arrayBuffer"`). -/
inductive RespType where
  | auto | json | blob | text | arrayBuffer
deriving DecidableEq

/-- `Exclude<ResponseType, "auto">`: the concrete parse strategies. -/
inductive FinalRespType where
  | json | blob | text | arrayBuffer
deriving DecidableEq

/-- `ApiTemplateArguments`. Optional fields are `Option`s whose `none` is an
absent (`undefined`) field; `token : Option (Option String)` distinguishes
absent (`none`), explicit `null` (`some none`) and a string
(`some (some s)`), and likewise `responseType` for `ResponseType | null`. -/
structure ApiTemplateArguments where
  baseUrl : String
  endpoint : String
  method : Option Method := none
  payload : Option (List (String × JSValue)) := none
  isAuthenticationRequired : Option Bool := none
  token : Option (Option String) := none
  isFormData : Option Bool := none
  responseType : Option (Option RespType) := none

/-- The prepared body: a serialized string or a multipart `FormData`
container (an ordered list of appended `(key, value)` entries). -/
inductive CrossBody where
  | str (s : String)
  | form (entries : List (String × JSValue))

structure PreparedRequest where
  headers : List (String × String)
  body : Option CrossBody

/-- Truthiness of an optional boolean field (`undefined` is falsy). -/
def optBoolTruthy : Option Bool → Bool
  | some b => b
  | none => false

/-- The token when it is truthy (`!token` fails for `undefined`, `null` and
the empty string). -/
def tokenValue : Option (Option String) → Option String
  | some (some s) => if strIsEmpty s then none else some s
  | _ => none

/-- `typeof File !== "undefined" && v instanceof File`. -/
def isBrowserFile : JSValue → Bool
  | JSValue.jsFile _ _ => true
  | _ => false

/-- `typeof Blob !== "undefined" && v instanceof Blob`. -/
def isBrowserBlob : JSValue → Bool
  | JSValue.jsBlob _ _ => true
  | _ => false

/-- `v && typeof v === "object" && typeof v.uri === "string"`. -/
def isReactNativeFile (v : JSValue) : Bool :=
  truthy v && typeofObject v && isStringVal (getProp v "uri")

/-- The `appendValue` closure inside `prepareRequest` (lines 93-111), as a
function from the form-data entries accumulated so far to the extended
entries: skip `null`/`undefined`, append file-like values as-is, other
objects JSON-serialized, and everything else via `String(v)`. -/
def appendValue (formData : List (String × JSValue)) (key : String) (v : JSValue) :
    List (String × JSValue) :=
  match v with
  | JSValue.undef => formData
  | JSValue.null => formData
  | _ =>
    if isBrowserFile v || isBrowserBlob v || isReactNativeFile v then
      formData ++ [(key, v)]
    else if typeofObject v then
      formData ++ [(key, JSValue.str ((jsonStringify v).getD "undefined"))]
    else
      formData ++ [(key, JSValue.str (jsToString v))]

/-- The `FormData` construction loop of `prepareRequest` (lines 88-115):
iterate the payload entries in order, skip `null`/`undefined` values, expand
arrays element by element, and apply `appendValue` to everything else. -/
def buildFormData (payload : List (String × JSValue)) : List (String × JSValue) :=
  payload.foldl
    (fun formData kv =>
      match kv.snd with
      | JSValue.undef => formData
      | JSValue.null => formData
      | JSValue.arr xs => xs.foldl (fun fd x => appendValue fd kv.fst x) formData
      | v => appendValue formData kv.fst v)
    []

/-- The payload as the JS value passed to `JSON.stringify` on the non-form
branch (an absent payload is `undefined` there: `prepareRequest` itself does
not default it, the orchestrator does). -/
def payloadJS : Option (List (String × JSValue)) → JSValue
  | none => JSValue.undef
  | some fs => JSValue.obj fs

/-- The body computation of `prepareRequest` (lines 83-121): no body for
`GET` (an absent method compares `!== "GET"` and so gets a body), multipart
entries when `isFormData`, otherwise `JSON.stringify(payload)` (which leaves
the body `undefined` when the payload is absent). -/
def prepareRequestBody (args : ApiTemplateArguments) : Option CrossBody :=
  if args.method ≠ some Method.GET then
    if optBoolTruthy args.isFormData then
      some (CrossBody.form (buildFormData (args.payload.getD [])))
    else
      (jsonStringify (payloadJS args.payload)).map CrossBody.str
  else none

/-- `prepareRequest` (lines 62-124): build headers (`Content-Type` unless
form data, `Authorization: Bearer <token>` when authentication is required,
throwing when the token is falsy) and the body. -/
def prepareRequest (args : ApiTemplateArguments) : Except JsError PreparedRequest :=
  let baseHeaders : List (String × String) :=
    if optBoolTruthy args.isFormData then []
    else [("Content-Type", "application/json")]
  if optBoolTruthy args.isAuthenticationRequired then
    match tokenValue args.token with
    | none => Except.error (plainError "Token is required but not available")
    | some t =>
      Except.ok { headers := baseHeaders ++ [("Authorization", "Bearer " ++ t)],
                  body := prepareRequestBody args }
  else
    Except.ok { headers := baseHeaders, body := prepareRequestBody args }

/-- The transport's view of a `fetch` response: the status/ok indicator, the
response headers, and the body-reading operations. Each reader is an
`Except` (a JS body read can reject); `blobAvail` / `arrayBufferAvail` model
`typeof response.blob === "function"` and likewise for `arrayBuffer`. -/
structure MockResponse where
  ok : Bool := true
  status : Nat := 200
  headers : List (String × String) := []
  jsonBody : Except JsError JSValue := Except.error (plainError "Unexpected token")
  textBody : Except JsError String := Except.ok ""
  blobAvail : Bool := false
  blobBody : Except JsError JSValue := Except.error (plainError "no blob")
  arrayBufferAvail : Bool := false
  arrayBufferBody : Except JsError JSValue := Except.error (plainError "no arrayBuffer")

/-- `response.headers.get(name)`: case-insensitive header lookup, `null`
(`none`) when absent. -/
def headersGet (hs : List (String × String)) (name : String) : Option String :=
  (hs.find? (fun p => strToLower p.fst = strToLower name)).map Prod.snd

/-- `CONTENT_TYPE_PATTERNS` (lines 16-29). -/
structure ContentTypePatterns where
  json : List String
  blob : List String
  text : List String

def CONTENT_TYPE_PATTERNS : ContentTypePatterns :=
  { json := ["application/json", "+json"],
    blob := ["application/pdf", "application/octet-stream", "application/zip",
             "application/vnd", "image/"],
    text := ["text/", "application/xml", "text/xml"] }

/-- The `matchesAny` loop inside `detectResponseType` (lines 132-140): walk
the pattern list and return at the first match; a pattern ending in `/`
matches as a prefix, any other pattern as a substring. -/
def matchesAny (contentType : String) : List String → Bool
  | [] => false
  | p :: rest =>
    let isMatch := if strEndsWith p "/" then strStartsWith contentType p
                   else strContains contentType p
    if isMatch then true else matchesAny contentType rest

/-- `detectResponseType` (lines 129-148): lowercase the `content-type`
header (missing header read as the empty string) and test the json, blob
and text pattern lists in that order, defaulting to text. -/
def detectResponseType (r : MockResponse) : FinalRespType :=
  let contentType := strToLower ((headersGet r.headers "content-type").getD "")
  if matchesAny contentType CONTENT_TYPE_PATTERNS.json then FinalRespType.json
  else if matchesAny contentType CONTENT_TYPE_PATTERNS.blob then FinalRespType.blob
  else if matchesAny contentType CONTENT_TYPE_PATTERNS.text then FinalRespType.text
  else FinalRespType.text

/-- One attempt of the regex `/filename="([^"]+)"/i` at successive start
positions: at each position require (case-insensitively) the literal
`filename="`, then a non-empty run of non-quote characters, then a closing
quote; otherwise slide one character right. The fuel is the remaining
number of start positions. -/
def filenameCaptureAux : Nat → String → Option String
  | 0, _ => none
  | Nat.succ fuel, s =>
    if strStartsWith (strToLower s) "filename=\"" then
      let rest := String.mk (s.data.drop 10)
      let cap := String.mk (rest.data.takeWhile (fun c => c ≠ '"'))
      if !strIsEmpty cap && strStartsWith (String.mk (rest.data.drop cap.data.length)) "\"" then
        some cap
      else filenameCaptureAux fuel (String.mk (s.data.drop 1))
    else filenameCaptureAux fuel (String.mk (s.data.drop 1))

/-- First match of `/filename="([^"]+)"/i`, first capture group. -/
def filenameCapture (s : String) : Option String :=
  filenameCaptureAux (s.data.length + 1) s

/-- The `getFilenameFromResponse` closure of `parseResponse` (lines
163-168): `null` when the `content-disposition` header is falsy, otherwise
the regex capture (`match?[1] ?? null`). -/
def getFilenameFromResponse (r : MockResponse) : Option String :=
  match headersGet r.headers "content-disposition" with
  | none => none
  | some cd => if strIsEmpty cd then none else filenameCapture cd

/-- Overwrite-or-append in a property list (JS property assignment). -/
def setAssoc : List (String × JSValue) → String → JSValue → List (String × JSValue)
  | [], k, x => [(k, x)]
  | (k0, v0) :: rest, k, x =>
    if k0 = k then (k, x) :: rest else (k0, v0) :: setAssoc rest k x

/-- JS property assignment `v.key = x` (a no-op on primitives). -/
def setProp (v : JSValue) (key : String) (x : JSValue) : JSValue :=
  match v with
  | JSValue.obj fs => JSValue.obj (setAssoc fs key x)
  | JSValue.jsFile nm fs => JSValue.jsFile nm (setAssoc fs key x)
  | JSValue.jsBlob nm fs => JSValue.jsBlob nm (setAssoc fs key x)
  | other => other

/-- The `throwIfOperationFailed` closure of `parseResponse` (lines 156-161):
`data?.type === "FALSE"` raises the logical-failure `ApiError` with status
400, the full parsed body, and the extracted message. -/
def throwIfOperationFailed (data : JSValue) : Except JsError Unit :=
  match getProp data "type" with
  | JSValue.str s =>
    if s = "FALSE" then
      Except.error (makeApiError (getErrorMessage data "Operation failed") 400 data)
    else Except.ok ()
  | _ => Except.ok ()

/-- `parseResponse` (lines 153-205): run the selected parse strategy. The
json strategy parses and checks the sentinel; the blob strategy attaches the
captured filename (or `null`) to the blob, falling back to `arrayBuffer`
then to text when readers are unavailable; `arrayBuffer` falls back to
text. -/
def parseResponse (r : MockResponse) (finalType : FinalRespType) :
    Except JsError JSValue :=
  match finalType with
  | FinalRespType.json =>
    match r.jsonBody with
    | Except.error e => Except.error e
    | Except.ok data =>
      match throwIfOperationFailed data with
      | Except.error e => Except.error e
      | Except.ok _ => Except.ok data
  | FinalRespType.blob =>
    let fileName := getFilenameFromResponse r
    if r.blobAvail then
      match r.blobBody with
      | Except.error e => Except.error e
      | Except.ok b =>
        Except.ok (setProp b "filename"
          (match fileName with | none => JSValue.null | some s => JSValue.str s))
    else if r.arrayBufferAvail then r.arrayBufferBody
    else
      match r.textBody with
      | Except.error e => Except.error e
      | Except.ok s => Except.ok (JSValue.str s)
  | FinalRespType.arrayBuffer =>
    if r.arrayBufferAvail then r.arrayBufferBody
    else
      match r.textBody with
      | Except.error e => Except.error e
      | Except.ok s => Except.ok (JSValue.str s)
  | FinalRespType.text =>
    match r.textBody with
    | Except.error e => Except.error e
    | Except.ok s => Except.ok (JSValue.str s)

/-- The error-body read of the non-success branch of `apiTemplate` (lines
237-249): JSON-parse when the lowercased content type contains
`application/json` or `+json`, otherwise read text; a throwing read leaves
the payload `null`. -/
def readErrorData (r : MockResponse) : JSValue :=
  let ct := strToLower ((headersGet r.headers "content-type").getD "")
  if strContains ct "application/json" || strContains ct "+json" then
    match r.jsonBody with
    | Except.ok v => v
    | Except.error _ => JSValue.null
  else
    match r.textBody with
    | Except.ok s => JSValue.str s
    | Except.error _ => JSValue.null

/-- The destructuring default `responseType = "auto"` (line 216): an absent
field becomes `"auto"`, an explicit `null` stays `null`. -/
def resolveResponseType : Option (Option RespType) → Option RespType
  | none => some RespType.auto
  | some v => v

/-- The `finalType` selection (lines 255-261): an explicit concrete
`responseType` wins, otherwise (`null` or `"auto"`) auto-detection. -/
def resolveFinalType (rt : Option RespType) (r : MockResponse) : FinalRespType :=
  match rt with
  | some RespType.json => FinalRespType.json
  | some RespType.blob => FinalRespType.blob
  | some RespType.text => FinalRespType.text
  | some RespType.arrayBuffer => FinalRespType.arrayBuffer
  | some RespType.auto => detectResponseType r
  | none => detectResponseType r

/-- The `normalizedArgs` construction of `apiTemplate` (lines 223-230). -/
def normalizeArgs (args : ApiTemplateArguments) : ApiTemplateArguments :=
  { args with
    method := some (args.method.getD Method.GET),
    payload := some (args.payload.getD []),
    isAuthenticationRequired := some (args.isAuthenticationRequired.getD false),
    token := some (match args.token with | some v => v | none => none),
    isFormData := some (args.isFormData.getD false) }

/-- One `fetch` invocation as seen by the transport collaborator. -/
structure TransportCall where
  url : String
  method : Method
  headers : List (String × String)
  body : Option CrossBody

/-- `apiTemplate` (lines 211-264) with the transport passed explicitly,
returning the result together with the list of transport calls issued
(exactly zero or one): validate the base URL, normalize the arguments,
prepare the request, call `fetch`, normalize a non-success status into an
`ApiError`, and otherwise parse the success response with the resolved
strategy. -/
def apiTemplateRun (args : ApiTemplateArguments)
    (transport : TransportCall → MockResponse) :
    Except JsError JSValue × List TransportCall :=
  if strIsEmpty args.baseUrl then
    (Except.error (plainError "Base URL not found"), [])
  else
    let method := args.method.getD Method.GET
    let responseType := resolveResponseType args.responseType
    let fullUrl := args.baseUrl ++ args.endpoint
    let normalizedArgs := normalizeArgs args
    match prepareRequest normalizedArgs with
    | Except.error e => (Except.error e, [])
    | Except.ok prep =>
      let call : TransportCall :=
        { url := fullUrl, method := method,
          headers := prep.headers, body := prep.body }
      let response := transport call
      if !response.ok then
        let errorData := readErrorData response
        let message :=
          getErrorMessage errorData ("API error (" ++ toString response.status ++ ")")
        (Except.error (makeApiError message response.status errorData), [call])
      else
        (parseResponse response (resolveFinalType responseType response), [call])

/-- The public entry point: the value `apiTemplate` settles with. -/
def apiTemplate (args : ApiTemplateArguments)
    (transport : TransportCall → MockResponse) : Except JsError JSValue :=
  (apiTemplateRun args transport).fst

/-! ## Auxiliary predicates used by the claim statements -/

mutual

/-- A value in the image of `JSON.parse`: no `undefined` and no platform
file/blob instances, recursively. -/
def isJsonValue : JSValue → Bool
  | JSValue.null => true
  | JSValue.bool _ => true
  | JSValue.num _ => true
  | JSValue.str _ => true
  | JSValue.arr xs => isJsonValueList xs
  | JSValue.obj fs => isJsonValueProps fs
  | _ => false

def isJsonValueList : List JSValue → Bool
  | [] => true
  | x :: rest => isJsonValue x && isJsonValueList rest

def isJsonValueProps : List (String × JSValue) → Bool
  | [] => true
  | kv :: rest => isJsonValue kv.snd && isJsonValueProps rest

end

/-- The sentinel-failure condition as the specification words it: the parsed
body is an object whose `type` field equals the literal string `"FALSE"`. -/
def isSentinelObject : JSValue → Bool
  | JSValue.obj fs =>
    match lookupProp fs "type" with
    | some (JSValue.str s) => s == "FALSE"
    | _ => false
  | _ => false

/-! ## Specification-side definitions (worded from `spec.md`, for the
refinement claims) -/

/-- Specification-side pattern match: a pattern ending in `/` matches by
prefix, any other pattern by substring. -/
def specPatternMatches (ct p : String) : Bool :=
  if strEndsWith p "/" then strStartsWith ct p else strContains ct p

/-- Specification-side classifier: lowercase the content type, check the
rule table in the fixed order json, blob, text, first match wins, default
text. -/
def specClassify (ct : String) : FinalRespType :=
  if CONTENT_TYPE_PATTERNS.json.any (specPatternMatches (strToLower ct)) then
    FinalRespType.json
  else if CONTENT_TYPE_PATTERNS.blob.any (specPatternMatches (strToLower ct)) then
    FinalRespType.blob
  else if CONTENT_TYPE_PATTERNS.text.any (specPatternMatches (strToLower ct)) then
    FinalRespType.text
  else FinalRespType.text

/-- The ordered probe list of the error-message extraction rule. -/
def errorMessageProbeFields : List String := ["message", "error", "detail", "msg", "title"]

/-- Specification-side field probe: the first non-empty (truthy) value among
the named fields, in order. -/
def firstNonEmptyField (payload : JSValue) : List String → Option JSValue
  | [] => none
  | k :: rest =>
    if truthy (getProp payload k) then some (getProp payload k)
    else firstNonEmptyField payload rest

/-- Specification-side error-message extraction: fallback on falsy payloads,
strings returned directly, objects probed field by field, anything else the
fallback. -/
def extractErrorMessageSpec (payload : JSValue) (fallback : String) : JSValue :=
  if truthy payload = false then JSValue.str fallback
  else if isStringVal payload then payload
  else if typeofObject payload then
    (firstNonEmptyField payload errorMessageProbeFields).getD (JSValue.str fallback)
  else JSValue.str fallback

/-- Specification-side per-value multipart append rule: skip `null` and
`undefined`, keep file-like values as-is, JSON-serialize other objects,
stringify other scalars. -/
def specAppendOne (key : String) (v : JSValue) : List (String × JSValue) :=
  match v with
  | JSValue.undef => []
  | JSValue.null => []
  | _ =>
    if isBrowserFile v || isBrowserBlob v || isReactNativeFile v then [(key, v)]
    else if typeofObject v then [(key, JSValue.str ((jsonStringify v).getD "undefined"))]
    else [(key, JSValue.str (jsToString v))]

/-- Specification-side multipart form: payload entries in key order, with
`null`/`undefined` entries dropped and sequence values expanded element by
element under the same repeated key. -/
def specFormEntries (payload : List (String × JSValue)) : List (String × JSValue) :=
  payload.flatMap (fun kv =>
    match kv.snd with
    | JSValue.undef => []
    | JSValue.null => []
    | JSValue.arr xs => xs.flatMap (specAppendOne kv.fst)
    | v => specAppendOne kv.fst v)

/-! ## Helper lemmas -/

lemma normalizeArgs_auth (args : ApiTemplateArguments) :
    optBoolTruthy (normalizeArgs args).isAuthenticationRequired
      = optBoolTruthy args.isAuthenticationRequired := by
  obtain ⟨b, e, m, p, a, tk, f, rt⟩ := args
  cases a <;> rfl

lemma normalizeArgs_token (args : ApiTemplateArguments) :
    tokenValue (normalizeArgs args).token = tokenValue args.token := by
  obtain ⟨b, e, m, p, a, tk, f, rt⟩ := args
  cases tk <;> rfl

lemma normalizeArgs_isFormData (args : ApiTemplateArguments) :
    optBoolTruthy (normalizeArgs args).isFormData = optBoolTruthy args.isFormData := by
  obtain ⟨b, e, m, p, a, tk, f, rt⟩ := args
  cases f <;> rfl

lemma prepareRequest_token_missing (args : ApiTemplateArguments)
    (ha : optBoolTruthy args.isAuthenticationRequired = true)
    (ht : tokenValue args.token = none) :
    prepareRequest args = Except.error (plainError "Token is required but not available") := by
  simp [prepareRequest, ha, ht]

lemma apiTemplateRun_of_prepare_error (args : ApiTemplateArguments)
    (t : TransportCall → MockResponse) (e : JsError)
    (hb : strIsEmpty args.baseUrl = false)
    (hp : prepareRequest (normalizeArgs args) = Except.error e) :
    apiTemplateRun args t = (Except.error e, []) := by
  simp [apiTemplateRun, hb, hp]

lemma apiTemplate_not_ok (args : ApiTemplateArguments) (r : MockResponse)
    (prep : PreparedRequest)
    (hb : strIsEmpty args.baseUrl = false)
    (hp : prepareRequest (normalizeArgs args) = Except.ok prep)
    (hok : r.ok = false) :
    apiTemplate args (fun _ => r) =
      Except.error (makeApiError
        (getErrorMessage (readErrorData r) ("API error (" ++ toString r.status ++ ")"))
        r.status (readErrorData r)) := by
  simp [apiTemplate, apiTemplateRun, hb, hp, hok]

lemma apiTemplate_ok_parse (args : ApiTemplateArguments) (r : MockResponse)
    (prep : PreparedRequest)
    (hb : strIsEmpty args.baseUrl = false)
    (hp : prepareRequest (normalizeArgs args) = Except.ok prep)
    (hok : r.ok = true) :
    apiTemplate args (fun _ => r) =
      parseResponse r (resolveFinalType (resolveResponseType args.responseType) r) := by
  simp [apiTemplate, apiTemplateRun, hb, hp, hok]

lemma matchesAny_eq_any (ct : String) :
    ∀ ps, matchesAny ct ps = ps.any (specPatternMatches ct) := by
  intro ps
  induction ps with
  | nil => rfl
  | cons p rest ih =>
    cases h : (if strEndsWith p "/" = true then strStartsWith ct p else strContains ct p) <;>
      simp [matchesAny, specPatternMatches, h, ih]

lemma detectResponseType_cases (r : MockResponse) :
    detectResponseType r = FinalRespType.json ∨ detectResponseType r = FinalRespType.blob
      ∨ detectResponseType r = FinalRespType.text := by
  have h : ∀ ct : String,
      (if matchesAny ct CONTENT_TYPE_PATTERNS.json then FinalRespType.json
       else if matchesAny ct CONTENT_TYPE_PATTERNS.blob then FinalRespType.blob
       else if matchesAny ct CONTENT_TYPE_PATTERNS.text then FinalRespType.text
       else FinalRespType.text) = FinalRespType.json
      ∨ (if matchesAny ct CONTENT_TYPE_PATTERNS.json then FinalRespType.json
         else if matchesAny ct CONTENT_TYPE_PATTERNS.blob then FinalRespType.blob
         else if matchesAny ct CONTENT_TYPE_PATTERNS.text then FinalRespType.text
         else FinalRespType.text) = FinalRespType.blob
      ∨ (if matchesAny ct CONTENT_TYPE_PATTERNS.json then FinalRespType.json
         else if matchesAny ct CONTENT_TYPE_PATTERNS.blob then FinalRespType.blob
         else if matchesAny ct CONTENT_TYPE_PATTERNS.text then FinalRespType.text
         else FinalRespType.text) = FinalRespType.text := by
    intro ct
    split_ifs <;> simp
  exact h (strToLower ((headersGet r.headers "content-type").getD ""))

/-! ## Claim theorems -/

/-- C3: the classifier is a total function of the response headers (a
missing `content-type` is read as the empty string, comparison is
case-insensitive via lowercasing): it checks the rule table in the fixed
order json, blob, text, where a pattern ending in `/` matches by prefix and
any other pattern by substring, returns the first matching category and
defaults to text; in particular `application/ld+json` classifies as json,
`image/png` as blob, `text/plain; charset=utf-8` as text and
`application/unknown-x` as text. -/
theorem detectResponseType_matches_spec_table :
    (∀ r : MockResponse,
      detectResponseType r = specClassify ((headersGet r.headers "content-type").getD ""))
    ∧ detectResponseType { headers := [("content-type", "application/ld+json")] }
        = FinalRespType.json
    ∧ detectResponseType { headers := [("content-type", "image/png")] }
        = FinalRespType.blob
    ∧ detectResponseType { headers := [("content-type", "text/plain; charset=utf-8")] }
        = FinalRespType.text
    ∧ detectResponseType { headers := [("content-type", "application/unknown-x")] }
        = FinalRespType.text := by
  refine ⟨?_, by decide, by decide, by decide, by decide⟩
  intro r
  simp [detectResponseType, specClassify, matchesAny_eq_any]

/-- C9: automatic classification never yields the `arrayBuffer` category
(`detectResponseType` always returns json, blob or text), and the resolved
final parse strategy is `arrayBuffer` only when the caller explicitly set
`responseType` to `"arrayBuffer"`. -/
theorem detectResponseType_never_arrayBuffer :
    (∀ r : MockResponse,
      detectResponseType r = FinalRespType.json ∨ detectResponseType r = FinalRespType.blob
        ∨ detectResponseType r = FinalRespType.text)
    ∧ (∀ (o : Option (Option RespType)) (r : MockResponse),
        resolveFinalType (resolveResponseType o) r = FinalRespType.arrayBuffer →
        o = some (some RespType.arrayBuffer)) := by
  constructor
  · exact detectResponseType_cases
  · intro o r h
    rcases o with _ | o0
    · exfalso
      rcases detectResponseType_cases r with h1 | h1 | h1 <;>
        simp [resolveResponseType, resolveFinalType, h1] at h
    · rcases o0 with _ | rt
      · exfalso
        rcases detectResponseType_cases r with h1 | h1 | h1 <;>
          simp [resolveResponseType, resolveFinalType, h1] at h
      · cases rt
        case auto =>
          exfalso
          rcases detectResponseType_cases r with h1 | h1 | h1 <;>
            simp [resolveResponseType, resolveFinalType, h1] at h
        case json => simp [resolveResponseType, resolveFinalType] at h
        case blob => simp [resolveResponseType, resolveFinalType] at h
        case text => simp [resolveResponseType, resolveFinalType] at h
        case arrayBuffer => rfl

/-- C9 witness: at an explicitly requested `arrayBuffer` response type the
resolved strategy is `arrayBuffer`, and the theorem recovers the explicit
request. -/
theorem detectResponseType_never_arrayBuffer_witness :
    resolveFinalType (resolveResponseType (some (some RespType.arrayBuffer))) { }
        = FinalRespType.arrayBuffer
    ∧ some (some RespType.arrayBuffer) = some (some RespType.arrayBuffer) :=
  ⟨rfl, detectResponseType_never_arrayBuffer.2 (some (some RespType.arrayBuffer)) { } rfl⟩

/-- C8: for every payload and fallback string, `getErrorMessage` implements
the extraction rule as the specification words it: the fallback on falsy
payloads, the payload itself when it is a string, on objects the first
non-empty (truthy) value among the fields `message`, `error`, `detail`,
`msg`, `title` in that priority order (the fallback when none is), and the
fallback on any other shape. -/
theorem getErrorMessage_matches_extraction_rule :
    ∀ (payload : JSValue) (fallback : String),
      getErrorMessage payload fallback = extractErrorMessageSpec payload fallback := by
  intro p f
  cases p <;>
    simp [getErrorMessage, extractErrorMessageSpec, truthy, isStringVal, typeofObject,
      errorMessageProbeFields, firstNonEmptyField, jsOr, Option.getD] <;>
    split_ifs <;> simp_all

lemma sentinel_getProp (data : JSValue) (h : isSentinelObject data = true) :
    getProp data "type" = JSValue.str "FALSE" := by
  cases data with
  | obj fs =>
    have h2 : (match lookupProp fs "type" with
               | some (JSValue.str s) => s == "FALSE"
               | _ => false) = true := h
    show (lookupProp fs "type").getD JSValue.undef = JSValue.str "FALSE"
    cases hl : lookupProp fs "type" with
    | none => rw [hl] at h2; exact absurd h2 (by simp)
    | some v =>
      rw [hl] at h2
      cases v <;> simp at h2
      case str s => rw [h2]; rfl
  | undef => simp [isSentinelObject] at h
  | null => simp [isSentinelObject] at h
  | bool b => simp [isSentinelObject] at h
  | num n => simp [isSentinelObject] at h
  | str s => simp [isSentinelObject] at h
  | arr xs => simp [isSentinelObject] at h
  | jsFile nm fs => simp [isSentinelObject] at h
  | jsBlob nm fs => simp [isSentinelObject] at h

lemma throwIfOperationFailed_of_sentinel (data : JSValue)
    (h : isSentinelObject data = true) :
    throwIfOperationFailed data =
      Except.error (makeApiError (getErrorMessage data "Operation failed") 400 data) := by
  unfold throwIfOperationFailed
  rw [sentinel_getProp data h]
  simp

lemma throwIfOperationFailed_of_not_sentinel (data : JSValue)
    (hj : isJsonValue data = true) (hs : isSentinelObject data = false) :
    throwIfOperationFailed data = Except.ok () := by
  unfold throwIfOperationFailed
  cases data with
  | obj fs =>
    have hs2 : (match lookupProp fs "type" with
                | some (JSValue.str s) => s == "FALSE"
                | _ => false) = false := hs
    cases hl : lookupProp fs "type" with
    | none => simp [getProp, hl]
    | some v =>
      rw [hl] at hs2
      cases v <;> simp [getProp, hl]
      case str s =>
        simp at hs2
        simp [hs2]
  | jsFile nm fs => simp [isJsonValue] at hj
  | jsBlob nm fs => simp [isJsonValue] at hj
  | undef => simp [getProp]
  | null => simp [getProp]
  | bool b => simp [getProp]
  | num n => simp [getProp]
  | str s => simp [getProp]
  | arr xs => simp [getProp]

/-- C1: when the success-path JSON parse yields a body `data`, `parseResponse`
with the json strategy (1) rejects with the status-400 `ApiError` carrying
the full body and the extracted message (fallback `"Operation failed"`) when
`data` is an object whose `type` field is the literal string `"FALSE"`,
(2) returns any other parsed JSON value as-is, and (3) hence `apiTemplate`
rejects the same way whenever the resolved strategy for a success response
is json and the body carries the sentinel. -/
theorem parseResponse_json_sentinel_failure (r : MockResponse) (data : JSValue)
    (hjson : r.jsonBody = Except.ok data) :
    (isSentinelObject data = true →
      parseResponse r FinalRespType.json =
        Except.error (makeApiError (getErrorMessage data "Operation failed") 400 data))
    ∧ (isJsonValue data = true → isSentinelObject data = false →
        parseResponse r FinalRespType.json = Except.ok data)
    ∧ (∀ args : ApiTemplateArguments,
        strIsEmpty args.baseUrl = false →
        (∃ prep, prepareRequest (normalizeArgs args) = Except.ok prep) →
        r.ok = true →
        resolveFinalType (resolveResponseType args.responseType) r = FinalRespType.json →
        isSentinelObject data = true →
        apiTemplate args (fun _ => r) =
          Except.error (makeApiError (getErrorMessage data "Operation failed") 400 data)) := by
  refine ⟨?_, ?_, ?_⟩
  · intro hs
    simp [parseResponse, hjson, throwIfOperationFailed_of_sentinel data hs]
  · intro hj hs
    simp [parseResponse, hjson, throwIfOperationFailed_of_not_sentinel data hj hs]
  · intro args hb hp hok hft hs
    obtain ⟨prep, hp⟩ := hp
    rw [apiTemplate_ok_parse args r prep hb hp hok, hft]
    simp [parseResponse, hjson, throwIfOperationFailed_of_sentinel data hs]

/-- C1 witness: the spec example `{"type":"FALSE","error":"bad input"}` is
rejected with message `"bad input"`, status 400 and the full body as data. -/
theorem parseResponse_json_sentinel_failure_witness :
    parseResponse
        { jsonBody := Except.ok (JSValue.obj
            [("type", JSValue.str "FALSE"), ("error", JSValue.str "bad input")]) }
        FinalRespType.json
      = Except.error (makeApiError
          (getErrorMessage
            (JSValue.obj [("type", JSValue.str "FALSE"), ("error", JSValue.str "bad input")])
            "Operation failed")
          400
          (JSValue.obj [("type", JSValue.str "FALSE"), ("error", JSValue.str "bad input")]))
    ∧ makeApiError
        (getErrorMessage
          (JSValue.obj [("type", JSValue.str "FALSE"), ("error", JSValue.str "bad input")])
          "Operation failed")
        400
        (JSValue.obj [("type", JSValue.str "FALSE"), ("error", JSValue.str "bad input")])
      = { name := "ApiError", message := "bad input", status := some 400,
          data := some (JSValue.obj
            [("type", JSValue.str "FALSE"), ("error", JSValue.str "bad input")]) } :=
  ⟨(parseResponse_json_sentinel_failure _ _ rfl).1 rfl, by
    have hmsg : getErrorMessage
        (JSValue.obj [("type", JSValue.str "FALSE"), ("error", JSValue.str "bad input")])
        "Operation failed" = JSValue.str "bad input" := rfl
    rw [hmsg]
    simp [makeApiError, jsToString]⟩

/-- Concrete inputs for the C2 witness. -/
def c2args : ApiTemplateArguments := { baseUrl := "https://api", endpoint := "/x" }

def c2resp : MockResponse :=
  { ok := false, status := 404,
    headers := [("content-type", "application/json")],
    jsonBody := Except.ok (JSValue.obj [("detail", JSValue.str "not found")]) }

/-- C2: for every transport response with a non-success status (issued from
an accepted request), `apiTemplate` rejects with an error carrying the
actual status, the error payload read by `readErrorData` (the JSON-parsed
body under a JSON content type, the text body otherwise, `null` when the
read throws) and the message extracted from that payload with fallback
`"API error (<status>)"`; in particular HTTP 404 with body
`{"detail":"not found"}` rejects with message `"not found"` and that body,
and HTTP 500 with an unparseable body rejects with `"API error (500)"` and
`null` data. -/
theorem apiTemplate_http_error_rejection :
    (∀ (args : ApiTemplateArguments) (r : MockResponse),
      strIsEmpty args.baseUrl = false →
      (∃ prep, prepareRequest (normalizeArgs args) = Except.ok prep) →
      r.ok = false →
      apiTemplate args (fun _ => r) =
        Except.error (makeApiError
          (getErrorMessage (readErrorData r) ("API error (" ++ toString r.status ++ ")"))
          r.status (readErrorData r)))
    ∧ apiTemplate { baseUrl := "https://api", endpoint := "/x" }
        (fun _ => { ok := false, status := 404,
                    headers := [("content-type", "application/json")],
                    jsonBody := Except.ok (JSValue.obj [("detail", JSValue.str "not found")]) })
        = Except.error { name := "ApiError", message := "not found", status := some 404,
                         data := some (JSValue.obj [("detail", JSValue.str "not found")]) }
    ∧ apiTemplate { baseUrl := "https://api", endpoint := "/x" }
        (fun _ => { ok := false, status := 500,
                    headers := [("content-type", "application/json")],
                    jsonBody := Except.error (plainError "Unexpected token"),
                    textBody := Except.error (plainError "read failed") })
        = Except.error { name := "ApiError", message := "API error (500)", status := some 500,
                         data := some JSValue.null } := by
  refine ⟨?_, ?_, ?_⟩
  · intro args r hb hp hok
    obtain ⟨prep, hp⟩ := hp
    exact apiTemplate_not_ok args r prep hb hp hok
  · have h1 : apiTemplate { baseUrl := "https://api", endpoint := "/x" }
        (fun _ => { ok := false, status := 404,
                    headers := [("content-type", "application/json")],
                    jsonBody := Except.ok (JSValue.obj [("detail", JSValue.str "not found")]) })
        = Except.error (makeApiError (JSValue.str "not found") 404
            (JSValue.obj [("detail", JSValue.str "not found")])) := rfl
    rw [h1]
    simp [makeApiError, jsToString]
  · have h1 : apiTemplate { baseUrl := "https://api", endpoint := "/x" }
        (fun _ => { ok := false, status := 500,
                    headers := [("content-type", "application/json")],
                    jsonBody := Except.error (plainError "Unexpected token"),
                    textBody := Except.error (plainError "read failed") })
        = Except.error (makeApiError (JSValue.str "API error (500)") 500 JSValue.null) := rfl
    rw [h1]
    simp [makeApiError, jsToString]

/-- C2 witness: the universally quantified part applied to the 404 spec
example. -/
theorem apiTemplate_http_error_rejection_witness :
    strIsEmpty c2args.baseUrl = false
    ∧ c2resp.ok = false
    ∧ apiTemplate c2args (fun _ => c2resp) =
        Except.error (makeApiError
          (getErrorMessage (readErrorData c2resp)
            ("API error (" ++ toString c2resp.status ++ ")"))
          c2resp.status (readErrorData c2resp)) :=
  ⟨rfl, rfl, apiTemplate_http_error_rejection.1 c2args c2resp rfl ⟨_, rfl⟩ rfl⟩

/-- C5: for every argument record with a non-empty base URL (the RequestSpec
invariant), `requiresAuth` truthy and a missing/empty token, request
preparation fails with the token validation error, and `apiTemplate`
surfaces exactly that failure while issuing no transport call (the call log
is empty). -/
theorem apiTemplate_auth_missing_validation (args : ApiTemplateArguments)
    (t : TransportCall → MockResponse)
    (hb : strIsEmpty args.baseUrl = false)
    (ha : optBoolTruthy args.isAuthenticationRequired = true)
    (ht : tokenValue args.token = none) :
    prepareRequest args = Except.error (plainError "Token is required but not available")
    ∧ apiTemplateRun args t =
        (Except.error (plainError "Token is required but not available"), []) := by
  constructor
  · exact prepareRequest_token_missing args ha ht
  · have hn : prepareRequest (normalizeArgs args)
        = Except.error (plainError "Token is required but not available") :=
      prepareRequest_token_missing _ ((normalizeArgs_auth args).trans ha)
        ((normalizeArgs_token args).trans ht)
    exact apiTemplateRun_of_prepare_error args t _ hb hn

/-- Concrete input for the C5 witness. -/
def c5args : ApiTemplateArguments :=
  { baseUrl := "https://api", endpoint := "/x", isAuthenticationRequired := some true }

/-- C5 witness: an authenticated request without a token fails with the
validation error and issues no transport call. -/
theorem apiTemplate_auth_missing_validation_witness :
    strIsEmpty c5args.baseUrl = false
    ∧ optBoolTruthy c5args.isAuthenticationRequired = true
    ∧ tokenValue c5args.token = none
    ∧ prepareRequest c5args = Except.error (plainError "Token is required but not available")
    ∧ apiTemplateRun c5args (fun _ => { }) =
        (Except.error (plainError "Token is required but not available"), []) :=
  ⟨rfl, rfl, rfl,
    (apiTemplate_auth_missing_validation c5args (fun _ => { }) rfl rfl rfl).1,
    (apiTemplate_auth_missing_validation c5args (fun _ => { }) rfl rfl rfl).2⟩

lemma appendValue_eq (fd : List (String × JSValue)) (k : String) (v : JSValue) :
    appendValue fd k v = fd ++ specAppendOne k v := by
  cases v <;> simp only [appendValue, specAppendOne] <;>
    first
    | (split_ifs <;> simp)
    | simp

lemma foldl_appendValue (k : String) :
    ∀ (xs : List JSValue) (fd : List (String × JSValue)),
      xs.foldl (fun fd x => appendValue fd k x) fd = fd ++ xs.flatMap (specAppendOne k) := by
  intro xs
  induction xs with
  | nil => intro fd; simp
  | cons x rest ih =>
    intro fd
    rw [List.foldl_cons, appendValue_eq, ih, List.flatMap_cons, List.append_assoc]

lemma buildFormData_eq_spec :
    ∀ payload, buildFormData payload = specFormEntries payload := by
  have aux : ∀ (ps : List (String × JSValue)) (acc : List (String × JSValue)),
      ps.foldl
        (fun formData kv =>
          match kv.snd with
          | JSValue.undef => formData
          | JSValue.null => formData
          | JSValue.arr xs => xs.foldl (fun fd x => appendValue fd kv.fst x) formData
          | v => appendValue formData kv.fst v)
        acc
      = acc ++ specFormEntries ps := by
    intro ps
    induction ps with
    | nil => intro acc; simp [specFormEntries]
    | cons kv rest ih =>
      intro acc
      obtain ⟨k, v⟩ := kv
      cases v with
      | undef =>
        simp only [List.foldl_cons]
        rw [ih]
        simp [specFormEntries]
      | null =>
        simp only [List.foldl_cons]
        rw [ih]
        simp [specFormEntries]
      | arr xs =>
        simp only [List.foldl_cons]
        rw [foldl_appendValue, ih]
        simp [specFormEntries, List.append_assoc]
      | bool b =>
        simp only [List.foldl_cons]
        rw [appendValue_eq, ih]
        simp [specFormEntries, List.append_assoc]
      | num n =>
        simp only [List.foldl_cons]
        rw [appendValue_eq, ih]
        simp [specFormEntries, List.append_assoc]
      | str st =>
        simp only [List.foldl_cons]
        rw [appendValue_eq, ih]
        simp [specFormEntries, List.append_assoc]
      | obj fs =>
        simp only [List.foldl_cons]
        rw [appendValue_eq, ih]
        simp [specFormEntries, List.append_assoc]
      | jsFile nm fs =>
        simp only [List.foldl_cons]
        rw [appendValue_eq, ih]
        simp [specFormEntries, List.append_assoc]
      | jsBlob nm fs =>
        simp only [List.foldl_cons]
        rw [appendValue_eq, ih]
        simp [specFormEntries, List.append_assoc]
  intro payload
  have h := aux payload []
  simpa [buildFormData] using h

lemma prepareRequest_ok_body (args : ApiTemplateArguments) (prep : PreparedRequest)
    (hp : prepareRequest args = Except.ok prep) :
    prep.body = prepareRequestBody args := by
  cases hauth : optBoolTruthy args.isAuthenticationRequired
  · simp [prepareRequest, hauth] at hp
    rw [← hp]
  · cases htok : tokenValue args.token
    · simp [prepareRequest, hauth, htok] at hp
    · simp [prepareRequest, hauth, htok] at hp
      rw [← hp]

/-- C6: multipart encoding (`isFormData` true, non-GET) appends exactly the
entries described by the per-value rule, in payload key order:
`null`/`undefined` entries produce nothing, sequences are expanded element
by element under the same repeated key, file-like values (platform
File/Blob, or an object with a string `uri` field) are appended as-is,
other objects JSON-serialized, other scalars stringified, and
`null`/`undefined` elements are skipped; the prepared body is exactly this
form; and the payload `{tags:["a","b"], note:null, meta:{x:1}}` produces
the entries `tags="a"`, `tags="b"`, `meta='{"x":1}'` and nothing for
`note`. -/
theorem buildFormData_multipart_encoding :
    (∀ payload, buildFormData payload = specFormEntries payload)
    ∧ (∀ (args : ApiTemplateArguments) (prep : PreparedRequest),
        optBoolTruthy args.isFormData = true →
        args.method ≠ some Method.GET →
        prepareRequest args = Except.ok prep →
        prep.body = some (CrossBody.form (buildFormData (args.payload.getD []))))
    ∧ buildFormData
        [("tags", JSValue.arr [JSValue.str "a", JSValue.str "b"]),
         ("note", JSValue.null),
         ("meta", JSValue.obj [("x", JSValue.num 1)])]
      = [("tags", JSValue.str "a"), ("tags", JSValue.str "b"),
         ("meta", JSValue.str "\x7b\"x\":1\x7d")] := by
  refine ⟨buildFormData_eq_spec, ?_, ?_⟩
  · intro args prep hf hm hp
    rw [prepareRequest_ok_body args prep hp]
    simp [prepareRequestBody, hm, hf]
  · have h1 : buildFormData
        [("tags", JSValue.arr [JSValue.str "a", JSValue.str "b"]),
         ("note", JSValue.null),
         ("meta", JSValue.obj [("x", JSValue.num 1)])]
      = [("tags", JSValue.str (jsToString (JSValue.str "a"))),
         ("tags", JSValue.str (jsToString (JSValue.str "b"))),
         ("meta", JSValue.str
           ((jsonStringify (JSValue.obj [("x", JSValue.num 1)])).getD "undefined"))] := rfl
    rw [h1]
    have h2 : jsonStringify (JSValue.obj [("x", JSValue.num 1)]) = some "\x7b\"x\":1\x7d" := by
      simp only [jsonStringify, jsonStringifyProps]
      rfl
    rw [h2]
    simp [jsToString]

/-- Concrete input for the C6 witness. -/
def c6args : ApiTemplateArguments :=
  { baseUrl := "b", endpoint := "", method := some Method.POST, isFormData := some true,
    payload := some [("tags", JSValue.arr [JSValue.str "a", JSValue.str "b"]),
                     ("note", JSValue.null),
                     ("meta", JSValue.obj [("x", JSValue.num 1)])] }

def c6prep : PreparedRequest := { headers := [], body := prepareRequestBody c6args }

/-- C6 witness: a concrete multipart POST whose prepared body is the built
form. -/
theorem buildFormData_multipart_encoding_witness :
    optBoolTruthy c6args.isFormData = true
    ∧ c6args.method ≠ some Method.GET
    ∧ prepareRequest c6args = Except.ok c6prep
    ∧ c6prep.body = some (CrossBody.form (buildFormData (c6args.payload.getD []))) :=
  ⟨rfl, by decide, rfl,
    buildFormData_multipart_encoding.2.1 c6args c6prep rfl (by decide) rfl⟩

/-- C7: for every argument record with `isFormData` false, after the
orchestrator's normalization a GET request carries no body regardless of
payload, and a non-GET request's body is exactly the JSON serialization of
the payload — the serialization of the empty object `{}` when the payload
is absent. -/
theorem prepareRequest_json_body (args : ApiTemplateArguments)
    (hf : optBoolTruthy args.isFormData = false) :
    (∀ prep, prepareRequest (normalizeArgs args) = Except.ok prep →
      ((args.method.getD Method.GET = Method.GET → prep.body = none)
       ∧ (args.method.getD Method.GET ≠ Method.GET →
           prep.body = (jsonStringify (JSValue.obj (args.payload.getD []))).map CrossBody.str)))
    ∧ (args.payload = none →
        (jsonStringify (JSValue.obj (args.payload.getD []))).map CrossBody.str
          = some (CrossBody.str "\x7b\x7d")) := by
  constructor
  · intro prep hp
    have hfN : optBoolTruthy (normalizeArgs args).isFormData = false :=
      (normalizeArgs_isFormData args).trans hf
    have hbody : prep.body = prepareRequestBody (normalizeArgs args) :=
      prepareRequest_ok_body _ prep hp
    constructor
    · intro hm
      rw [hbody]
      simp [prepareRequestBody, normalizeArgs, hm]
    · intro hm
      rw [hbody]
      have hf2 : args.isFormData.getD false = false := by
        cases hfd : args.isFormData with
        | none => rfl
        | some b => rw [hfd] at hf; exact hf
      simp [prepareRequestBody, normalizeArgs, hm, payloadJS, hf2, optBoolTruthy]
  · intro hpayload
    rw [hpayload]
    have h2 : jsonStringify (JSValue.obj (([] : List (String × JSValue)))) = some "\x7b\x7d" := by
      simp only [jsonStringify, jsonStringifyProps]
      rfl
    simp [h2]

/-- Concrete input for the C7 witness. -/
def c7args : ApiTemplateArguments :=
  { baseUrl := "b", endpoint := "", method := some Method.POST,
    payload := some [("a", JSValue.num 2)] }

def c7prep : PreparedRequest :=
  { headers := [("Content-Type", "application/json")],
    body := prepareRequestBody (normalizeArgs c7args) }

/-- C7 witness: a concrete non-GET JSON request whose body is the payload
serialization. -/
theorem prepareRequest_json_body_witness :
    optBoolTruthy c7args.isFormData = false
    ∧ prepareRequest (normalizeArgs c7args) = Except.ok c7prep
    ∧ c7args.method.getD Method.GET ≠ Method.GET
    ∧ c7prep.body = (jsonStringify (JSValue.obj (c7args.payload.getD []))).map CrossBody.str :=
  ⟨rfl, rfl, by decide,
    ((prepareRequest_json_body c7args rfl).1 c7prep rfl).2 (by decide)⟩

/-- C10: for every argument record accepted by request preparation, the
prepared headers are exactly the `Content-Type: application/json` binding
(present precisely when `isFormData` is falsy) followed by the
`Authorization: Bearer <token>` binding (present precisely when
`requiresAuth` is truthy) — no other header is ever set. -/
theorem prepareRequest_headers_exact (args : ApiTemplateArguments) (prep : PreparedRequest)
    (h : prepareRequest args = Except.ok prep) :
    (optBoolTruthy args.isAuthenticationRequired = false →
      prep.headers = (if optBoolTruthy args.isFormData then []
                      else [("Content-Type", "application/json")]))
    ∧ (∀ tk, optBoolTruthy args.isAuthenticationRequired = true →
        tokenValue args.token = some tk →
        prep.headers = (if optBoolTruthy args.isFormData then []
                        else [("Content-Type", "application/json")])
          ++ [("Authorization", "Bearer " ++ tk)]) := by
  constructor
  · intro hauth
    simp [prepareRequest, hauth] at h
    rw [← h]
  · intro tk hauth htok
    simp [prepareRequest, hauth, htok] at h
    rw [← h]

/-- Concrete input for the C10 witness. -/
def c10args : ApiTemplateArguments :=
  { baseUrl := "b", endpoint := "", isAuthenticationRequired := some true,
    token := some (some "tok123") }

def c10prep : PreparedRequest :=
  { headers := [("Content-Type", "application/json"), ("Authorization", "Bearer tok123")],
    body := prepareRequestBody c10args }

/-- C10 witness: an authenticated JSON request carries exactly the
content-type and authorization headers. -/
theorem prepareRequest_headers_exact_witness :
    prepareRequest c10args = Except.ok c10prep
    ∧ optBoolTruthy c10args.isAuthenticationRequired = true
    ∧ tokenValue c10args.token = some "tok123"
    ∧ c10prep.headers = (if optBoolTruthy c10args.isFormData then []
                         else [("Content-Type", "application/json")])
        ++ [("Authorization", "Bearer " ++ "tok123")] :=
  ⟨rfl, rfl, rfl,
    (prepareRequest_headers_exact c10args c10prep rfl).2 "tok123" rfl rfl⟩

/-- C4 counterexample: an auth-required request without a token is rejected
with a plain `Error` whose `status` and `data` fields were never assigned —
the validation failure is not surfaced as a uniform
`{message, status, data}` object. -/
theorem apiTemplate_validation_error_not_uniform_cex :
    apiTemplate { baseUrl := "https://api.example", endpoint := "/r",
                  isAuthenticationRequired := some true } (fun _ => { })
      = Except.error { name := "Error", message := "Token is required but not available",
                       status := none, data := none } := rfl

/-- C4 (amended): HTTP non-success failures and logical sentinel failures
are surfaced as uniform `ApiError` objects exposing `message`, `status` and
`data`; validation failures (missing base URL, or auth required without a
token) are surfaced as plain `Error` objects exposing only `message`, with
`status` and `data` absent. -/
theorem apiTemplate_error_surface_amended :
    (∀ (m : JSValue) (s : Nat) (d : JSValue),
      (makeApiError m s d).name = "ApiError" ∧ (makeApiError m s d).status = some s
        ∧ (makeApiError m s d).data = some d)
    ∧ (∀ m : String, (plainError m).status = none ∧ (plainError m).data = none)
    ∧ (∀ (args : ApiTemplateArguments) (t : TransportCall → MockResponse),
        strIsEmpty args.baseUrl = true →
        apiTemplate args t = Except.error (plainError "Base URL not found"))
    ∧ (∀ (args : ApiTemplateArguments) (t : TransportCall → MockResponse),
        strIsEmpty args.baseUrl = false →
        optBoolTruthy args.isAuthenticationRequired = true →
        tokenValue args.token = none →
        apiTemplate args t = Except.error (plainError "Token is required but not available"))
    ∧ (∀ (args : ApiTemplateArguments) (r : MockResponse),
        strIsEmpty args.baseUrl = false →
        (∃ prep, prepareRequest (normalizeArgs args) = Except.ok prep) →
        r.ok = false →
        apiTemplate args (fun _ => r)
          = Except.error (makeApiError
              (getErrorMessage (readErrorData r) ("API error (" ++ toString r.status ++ ")"))
              r.status (readErrorData r)))
    ∧ (∀ (r : MockResponse) (data : JSValue),
        r.jsonBody = Except.ok data → isSentinelObject data = true →
        parseResponse r FinalRespType.json
          = Except.error (makeApiError (getErrorMessage data "Operation failed") 400 data)) := by
  refine ⟨?_, ?_, ?_, ?_, ?_, ?_⟩
  · intro m s d; exact ⟨rfl, rfl, rfl⟩
  · intro m; exact ⟨rfl, rfl⟩
  · intro args t hb
    simp [apiTemplate, apiTemplateRun, hb]
  · intro args t hb ha ht
    have hn : prepareRequest (normalizeArgs args)
        = Except.error (plainError "Token is required but not available") :=
      prepareRequest_token_missing _ ((normalizeArgs_auth args).trans ha)
        ((normalizeArgs_token args).trans ht)
    unfold apiTemplate
    rw [apiTemplateRun_of_prepare_error args t _ hb hn]
  · intro args r hb hp hok
    obtain ⟨prep, hp⟩ := hp
    exact apiTemplate_not_ok args r prep hb hp hok
  · intro r data hj hs
    simp [parseResponse, hj, throwIfOperationFailed_of_sentinel data hs]

/-- C4 witness: the missing-base-URL validation failure at a concrete
input. -/
theorem apiTemplate_error_surface_amended_witness :
    strIsEmpty ("" : String) = true
    ∧ apiTemplate { baseUrl := "", endpoint := "/r" } (fun _ => { })
        = Except.error (plainError "Base URL not found") :=
  ⟨rfl, apiTemplate_error_surface_amended.2.2.1 { baseUrl := "", endpoint := "/r" }
    (fun _ => { }) rfl⟩
